import Mathlib

/-!
A verification development for the SQLMap GUI front-end (`sql.py`).

The development shallowly embeds the two pieces of logic of the program:

* the option-set-to-command-line compiler (`generate_command`, source lines
  552-683), modelled as a pure function from an `Options` record (the Option
  Model: one field per Tk variable read by the compiler) to the list of
  command tokens joined with single spaces;
* the execution supervisor (`execute_sqlmap`, `_run_sqlmap`,
  `_execution_finished`, `_execution_error`, `stop_execution`, source lines
  685-780), modelled as a transition system over a small state record plus a
  pure event-trace function for the background worker;
* the preset store (`load_presets`, `load_preset`, `save_preset`,
  `delete_preset`, source lines 807-930), modelled with the store as a
  function from names to optional presets (the Python dict) and the live
  Tk variables as a function from key strings to values (the reflective
  `dir(self)` / `hasattr` access used by the source).
-/

/-- The Option Model: one field per Tk variable consumed by
`generate_command`, with the default value each variable is created with in
the source (`tk.StringVar()` is the empty string, `tk.BooleanVar()` is
false, and the explicit defaults risk "1", level "1", threads "1",
timeout "30", retries "3", delay "0"). -/
structure Options where
  url : String := ""
  data : String := ""
  cookie : String := ""
  user_agent : String := ""
  referer : String := ""
  headers : String := ""
  proxy : String := ""
  risk : String := "1"
  level : String := "1"
  threads : String := "1"
  timeout : String := "30"
  retries : String := "3"
  delay : String := "0"
  tor : Bool := false
  random_agent : Bool := false
  batch : Bool := false
  verbose : Bool := false
  enum_dbs : Bool := false
  enum_tables : Bool := false
  enum_columns : Bool := false
  enum_schema : Bool := false
  database : String := ""
  table : String := ""
  dump_all : Bool := false
  dump_table : Bool := false
  dump_columns : Bool := false
  count : Bool := false
  common_tables : Bool := false
  common_columns : Bool := false
  wordlist : String := ""
  tech_boolean : Bool := false
  tech_error : Bool := false
  tech_union : Bool := false
  tech_stacked : Bool := false
  tech_time : Bool := false
  tech_inline : Bool := false
  os_detect : Bool := false
  dbms_detect : Bool := false
  output_dir : String := ""
  deriving DecidableEq, Repr

/-- Names for the option slots of `generate_command`, in no particular
order; `optOrder` below fixes the order the source appends them in. -/
inductive Opt where
  | url | data | cookie | user_agent | referer | headers | proxy
  | risk | level | threads | timeout | retries | delay
  | tor | random_agent | batch | verbose
  | enum_dbs | enum_tables | enum_columns | enum_schema
  | database | table
  | dump_all | dump_table | dump_columns | count
  | common_tables | common_columns | wordlist
  | technique | os_detect | dbms_detect | output_dir
  deriving DecidableEq, Fintype, Repr

/-- Source lines 652-664: the technique letter list, one fixed letter per
technique boolean, appended in the fixed source order B, E, U, S, T, Q. -/
def techniques (o : Options) : List String :=
  (if o.tech_boolean then ["B"] else []) ++
  (if o.tech_error then ["E"] else []) ++
  (if o.tech_union then ["U"] else []) ++
  (if o.tech_stacked then ["S"] else []) ++
  (if o.tech_time then ["T"] else []) ++
  (if o.tech_inline then ["Q"] else [])

/-- The tokens contributed by one option slot, each mirroring one `if`
block of `generate_command` (source lines 557-677).  Text options are
included when non-empty and wrap their value in literal double quotes;
numeric options are included when different from their default; boolean
options contribute a bare flag when true; the technique composite emits a
single `--technique=<letters>` token when at least one technique boolean
is set. -/
def tokenFor : Opt → Options → List String
  | .url, o => if o.url ≠ "" then ["-u \"" ++ o.url ++ "\""] else []
  | .data, o => if o.data ≠ "" then ["--data=\"" ++ o.data ++ "\""] else []
  | .cookie, o => if o.cookie ≠ "" then ["--cookie=\"" ++ o.cookie ++ "\""] else []
  | .user_agent, o => if o.user_agent ≠ "" then ["--user-agent=\"" ++ o.user_agent ++ "\""] else []
  | .referer, o => if o.referer ≠ "" then ["--referer=\"" ++ o.referer ++ "\""] else []
  | .headers, o => if o.headers ≠ "" then ["--headers=\"" ++ o.headers ++ "\""] else []
  | .proxy, o => if o.proxy ≠ "" then ["--proxy=\"" ++ o.proxy ++ "\""] else []
  | .risk, o => if o.risk ≠ "1" then ["--risk=" ++ o.risk] else []
  | .level, o => if o.level ≠ "1" then ["--level=" ++ o.level] else []
  | .threads, o => if o.threads ≠ "1" then ["--threads=" ++ o.threads] else []
  | .timeout, o => if o.timeout ≠ "30" then ["--timeout=" ++ o.timeout] else []
  | .retries, o => if o.retries ≠ "3" then ["--retries=" ++ o.retries] else []
  | .delay, o => if o.delay ≠ "0" then ["--delay=" ++ o.delay] else []
  | .tor, o => if o.tor then ["--tor"] else []
  | .random_agent, o => if o.random_agent then ["--random-agent"] else []
  | .batch, o => if o.batch then ["--batch"] else []
  | .verbose, o => if o.verbose then ["-v"] else []
  | .enum_dbs, o => if o.enum_dbs then ["--dbs"] else []
  | .enum_tables, o => if o.enum_tables then ["--tables"] else []
  | .enum_columns, o => if o.enum_columns then ["--columns"] else []
  | .enum_schema, o => if o.enum_schema then ["--schema"] else []
  | .database, o => if o.database ≠ "" then ["-D \"" ++ o.database ++ "\""] else []
  | .table, o => if o.table ≠ "" then ["-T \"" ++ o.table ++ "\""] else []
  | .dump_all, o => if o.dump_all then ["--dump-all"] else []
  | .dump_table, o => if o.dump_table then ["--dump"] else []
  | .dump_columns, o => if o.dump_columns then ["--dump-columns"] else []
  | .count, o => if o.count then ["--count"] else []
  | .common_tables, o => if o.common_tables then ["--common-tables"] else []
  | .common_columns, o => if o.common_columns then ["--common-columns"] else []
  | .wordlist, o => if o.wordlist ≠ "" then ["--wordlist=\"" ++ o.wordlist ++ "\""] else []
  | .technique, o =>
      if techniques o ≠ [] then ["--technique=" ++ String.join (techniques o)] else []
  | .os_detect, o => if o.os_detect then ["--os-detect"] else []
  | .dbms_detect, o => if o.dbms_detect then ["--dbms-detect"] else []
  | .output_dir, o => if o.output_dir ≠ "" then ["--output-dir=\"" ++ o.output_dir ++ "\""] else []

/-- The order in which `generate_command` appends the option blocks
(source lines 557-677, top to bottom). -/
def optOrder : List Opt :=
  [.url, .data, .cookie, .user_agent, .referer, .headers, .proxy,
   .risk, .level, .threads, .timeout, .retries, .delay,
   .tor, .random_agent, .batch, .verbose,
   .enum_dbs, .enum_tables, .enum_columns, .enum_schema,
   .database, .table,
   .dump_all, .dump_table, .dump_columns, .count,
   .common_tables, .common_columns, .wordlist,
   .technique, .os_detect, .dbms_detect, .output_dir]

/-- The `command_parts` list of `generate_command`: the fixed program name
followed by each option block's tokens in source order. -/
def command_parts (o : Options) : List String :=
  "sqlmap" :: List.foldr (fun i acc => tokenFor i o ++ acc) [] optOrder

/-- Source line 679: `" ".join(command_parts)`. -/
def generate_command (o : Options) : String :=
  String.intercalate " " (command_parts o)

/-- The fixed leading characters of any token an option slot can emit:
the whole token for bare boolean flags, the flag-plus-separator prefix for
value-carrying options. -/
def sig : Opt → String
  | .url => "-u \""
  | .data => "--data=\""
  | .cookie => "--cookie=\""
  | .user_agent => "--user-agent=\""
  | .referer => "--referer=\""
  | .headers => "--headers=\""
  | .proxy => "--proxy=\""
  | .risk => "--risk="
  | .level => "--level="
  | .threads => "--threads="
  | .timeout => "--timeout="
  | .retries => "--retries="
  | .delay => "--delay="
  | .tor => "--tor"
  | .random_agent => "--random-agent"
  | .batch => "--batch"
  | .verbose => "-v"
  | .enum_dbs => "--dbs"
  | .enum_tables => "--tables"
  | .enum_columns => "--columns"
  | .enum_schema => "--schema"
  | .database => "-D \""
  | .table => "-T \""
  | .dump_all => "--dump-all"
  | .dump_table => "--dump"
  | .dump_columns => "--dump-columns"
  | .count => "--count"
  | .common_tables => "--common-tables"
  | .common_columns => "--common-columns"
  | .wordlist => "--wordlist=\""
  | .technique => "--technique="
  | .os_detect => "--os-detect"
  | .dbms_detect => "--dbms-detect"
  | .output_dir => "--output-dir=\""

/-- For the boolean flags, the one literal token the slot can emit; `none`
for the value-carrying options. -/
def litOpt : Opt → Option String
  | .tor => some "--tor"
  | .random_agent => some "--random-agent"
  | .batch => some "--batch"
  | .verbose => some "-v"
  | .enum_dbs => some "--dbs"
  | .enum_tables => some "--tables"
  | .enum_columns => some "--columns"
  | .enum_schema => some "--schema"
  | .dump_all => some "--dump-all"
  | .dump_table => some "--dump"
  | .dump_columns => some "--dump-columns"
  | .count => some "--count"
  | .common_tables => some "--common-tables"
  | .common_columns => some "--common-columns"
  | .os_detect => some "--os-detect"
  | .dbms_detect => some "--dbms-detect"
  | _ => none

/-! ## Execution supervisor -/

/-- What the external process launched by `_run_sqlmap` does: either the
`try` block raises (at `Popen`, while reading, or at `wait`) after some
lines were already forwarded, or the process runs to completion producing
its output lines and an exit status. -/
inductive ProcResult where
  | raised (before : List String) (msg : String)
  | completed (lines : List String) (exitCode : Int)
  deriving DecidableEq, Repr

/-- The events the supervisor delivers to the display sink. -/
inductive SupEvent where
  | outputLine (t : String)
  | finishedSuccess
  | finishedFailure (msg : String)
  deriving DecidableEq, Repr

/-- Source lines 714-737 plus the completion handlers at 745-772: the
worker forwards each output line, then — on normal return of
`process.wait()` — schedules `_execution_finished` (the success event),
and — when the `try` block raises — schedules `_execution_error` with the
exception text (the failure event).  Both handlers clear `is_running`;
the exit status of the process is never inspected, which is why
`exitCode` is unused.  Returns the delivered event list and the final
value of `is_running`. -/
def run_sqlmap : ProcResult → List SupEvent × Bool
  | .raised before msg =>
      (before.map SupEvent.outputLine ++ [SupEvent.finishedFailure msg], false)
  | .completed lines _exitCode =>
      (lines.map SupEvent.outputLine ++ [SupEvent.finishedSuccess], false)

/-- Supervisor state: the `current_command` and `is_running` attributes of
the GUI object, the accumulated output lines of the output pane, plus
three counters describing the outside world: `procs` counts external
processes that are live and still attached to a reading worker, `orphans`
counts external processes that are still live but whose worker has
abandoned them (the `except` clause fired while reading, so nothing will
ever reap them), and `pendingDone` counts completion callbacks
(`_execution_finished` / `_execution_error`) already scheduled with
`root.after` but not yet run by the foreground loop. -/
structure SupState where
  current_command : String
  is_running : Bool
  output : List String
  procs : Nat
  orphans : Nat
  pendingDone : Nat
  deriving DecidableEq, Repr

/-- Initial state (source lines 25-27): empty command, not running. -/
def initState : SupState :=
  { current_command := "", is_running := false, output := [], procs := 0,
    orphans := 0, pendingDone := 0 }

/-- The failure modes `execute_sqlmap` reports synchronously via
`messagebox` before touching any state (source lines 687-693). -/
inductive ExecError where
  | noCommand
  | alreadyRunning
  deriving DecidableEq, Repr

/-- Source lines 685-712: reject when no command was generated, reject
when already running, otherwise clear the output pane, set `is_running`
and start the worker thread.  `launchOk` tells whether `subprocess.Popen`
will succeed in the worker: on success a process is now live (`procs`),
on failure the worker immediately schedules `_execution_error`
(`pendingDone`); either way no GUI state beyond the above changes. -/
def execute_sqlmap (launchOk : Bool) (s : SupState) : Except ExecError SupState :=
  if s.current_command = "" then .error .noCommand
  else if s.is_running then .error .alreadyRunning
  else .ok <|
    if launchOk then
      { s with is_running := true, output := [], procs := s.procs + 1 }
    else
      { s with is_running := true, output := [], pendingDone := s.pendingDone + 1 }

/-- Source lines 774-780: a stop request only clears the flag when
running; the external process is not touched. -/
def stop_execution (s : SupState) : SupState :=
  if s.is_running then { s with is_running := false } else s

/-- The operations that can reach the supervisor state: a command
generation, an execution request, and the asynchronous happenings of a
live session (an output line arriving, the process exiting and scheduling
its completion callback, the worker's `except` clause firing while the
process is still alive, the foreground running a completion callback,
a stop request). -/
inductive SupOp where
  | genCommand (o : Options)
  | execute (launchOk : Bool)
  | procLine (t : String)
  | procExit
  | streamError
  | doneEvent
  | stop
  deriving DecidableEq

/-- One step of the supervisor: `genCommand` stores the compiled command
(source line 679), `execute` applies `execute_sqlmap` (errors leave the
state untouched — the source shows a message box and returns), `procLine`
appends a forwarded line to the output pane, `procExit` turns a live
attached process into a scheduled completion callback (the worker reached
`process.wait()` normally), `streamError` is the worker's `except` clause
firing after a successful launch (source lines 736-737, e.g. `readline`
raising on undecodable output): it schedules `_execution_error` while the
process stays alive with nobody reading it any more, `doneEvent` runs a
scheduled callback (clearing `is_running`, source lines 747 and 761), and
`stop` applies `stop_execution`. -/
def stepOp : SupOp → SupState → SupState
  | .genCommand o, s => { s with current_command := generate_command o }
  | .execute ok, s =>
      match execute_sqlmap ok s with
      | .ok s' => s'
      | .error _ => s
  | .procLine t, s => if s.procs ≠ 0 then { s with output := s.output ++ [t] } else s
  | .procExit, s =>
      if s.procs ≠ 0 then { s with procs := s.procs - 1, pendingDone := s.pendingDone + 1 }
      else s
  | .streamError, s =>
      if s.procs ≠ 0 then
        { s with procs := s.procs - 1, orphans := s.orphans + 1,
                 pendingDone := s.pendingDone + 1 }
      else s
  | .doneEvent, s =>
      if s.pendingDone ≠ 0 then { s with pendingDone := s.pendingDone - 1, is_running := false }
      else s
  | .stop, s => stop_execution s

/-- Run a sequence of operations from a state. -/
def runOps (ops : List SupOp) (s : SupState) : SupState :=
  ops.foldl (fun s op => stepOp op s) s

/-! ## Preset store -/

/-- A value held by a Tk variable: text of a `StringVar` or the flag of a
`BooleanVar`. -/
inductive Val where
  | s (v : String)
  | b (v : Bool)
  deriving DecidableEq, Repr

/-- Truthiness as Python's `if value:` sees a Tk variable's value. -/
def truthy : Val → Bool
  | .s v => v ≠ ""
  | .b v => v

/-- The attribute names of the GUI object that end in `_var` and have a
`get` method, minus that suffix, in the sorted order `dir(self)` yields
them; this is exactly the key set `save_preset` iterates over and the
`hasattr(self, f"{key}_var")` domain of `load_preset`.  Note it includes
the status-bar variables `status` and `progress`. -/
def varKeys : List String :=
  ["batch", "common_columns", "common_tables", "cookie", "count", "data",
   "database", "dbms_detect", "delay", "dump_all", "dump_columns",
   "dump_table", "enum_columns", "enum_dbs", "enum_schema", "enum_tables",
   "headers", "level", "os_detect", "output_dir", "progress", "proxy",
   "random_agent", "referer", "retries", "risk", "status", "table",
   "tech_boolean", "tech_error", "tech_inline", "tech_stacked",
   "tech_time", "tech_union", "threads", "timeout", "tor", "url",
   "user_agent", "verbose", "wordlist"]

/-- A preset: the named snapshot `save_preset` builds, i.e. the items of
the Python dict, keyed by variable name. -/
abbrev Preset := List (String × Val)

/-- The in-memory preset store `self.presets`: a Python dict, modelled by
its lookup function. -/
def Store := String → Option Preset

/-- Source lines 900-908: collect every `_var` attribute's value, keeping
only truthy ones, keyed by the attribute name without the `_var` suffix. -/
def collectPreset (live : String → Val) : Preset :=
  varKeys.filterMap fun k => if truthy (live k) then some (k, live k) else none

/-- The six built-in presets assigned by `load_presets` (source lines
809-864), as a lookup function. -/
def builtinStore : Store := fun name =>
  if name = "🚀 Quick Scan" then
    some [("risk", .s "2"), ("level", .s "3"), ("batch", .b true),
          ("verbose", .b true), ("random_agent", .b true)]
  else if name = "🔍 Comprehensive Scan" then
    some [("risk", .s "3"), ("level", .s "5"), ("threads", .s "10"),
          ("batch", .b true), ("verbose", .b true), ("enum_dbs", .b true),
          ("enum_tables", .b true), ("enum_columns", .b true),
          ("random_agent", .b true)]
  else if name = "📊 Database Enumeration" then
    some [("risk", .s "2"), ("level", .s "3"), ("batch", .b true),
          ("enum_dbs", .b true), ("enum_tables", .b true),
          ("enum_columns", .b true), ("verbose", .b true)]
  else if name = "💾 Data Extraction" then
    some [("risk", .s "3"), ("level", .s "4"), ("batch", .b true),
          ("dump_all", .b true), ("verbose", .b true),
          ("random_agent", .b true)]
  else if name = "🎯 Stealth Mode" then
    some [("risk", .s "1"), ("level", .s "2"), ("delay", .s "2"),
          ("batch", .b true), ("tor", .b true), ("random_agent", .b true)]
  else if name = "⚡ Aggressive Scan" then
    some [("risk", .s "3"), ("level", .s "5"), ("threads", .s "15"),
          ("batch", .b true), ("verbose", .b true), ("enum_dbs", .b true),
          ("enum_tables", .b true), ("enum_columns", .b true),
          ("dump_all", .b true)]
  else none

/-- Source lines 807-869: `load_presets` REASSIGNS `self.presets` to the
dict of six built-ins (and refreshes the listbox), discarding whatever the
store held before. -/
def load_presets (_ : Store) : Store := builtinStore

/-- Source lines 896-898: prepend "⚙️ " unless the name already contains a
character with code point above 127. -/
def presetKey (name : String) : String :=
  if name.data.any (fun c => 127 < c.toNat) then name else "⚙️ " ++ name

/-- The store as it stands at source line 910, right after
`self.presets[preset_name] = preset` and before the `load_presets()`
call: the collected settings inserted under the mangled key. -/
def save_preset_store (live : String → Val) (name : String) (st : Store) : Store :=
  fun k => if k = presetKey name then some (collectPreset live) else st k

/-- Source lines 890-914: `save_preset` returns early on an empty (or
cancelled) name, otherwise inserts the collected settings under the
mangled key and then calls `load_presets()` — which resets the store to
the built-ins. -/
def save_preset (live : String → Val) (name : String) (st : Store) : Store :=
  if name = "" then st else load_presets (save_preset_store live name st)

/-- Source lines 916-930: `delete_preset` removes the selected name from
the dict and then calls `load_presets()` — which resets the store to the
built-ins.  Modelled for names present in the store (the selection always
is); other names leave the store unchanged. -/
def delete_preset (name : String) (st : Store) : Store :=
  if (st name).isSome then load_presets (fun k => if k = name then none else st k) else st

/-- Source lines 871-888: applying a preset sets, for each item in the
preset dict in order, the Tk variable named by its key — when such a
variable exists (`hasattr`); all other live values are untouched. -/
def apply_preset (p : Preset) (live : String → Val) : String → Val :=
  p.foldl
    (fun acc kv =>
      if kv.1 ∈ varKeys then (fun k => if k = kv.1 then kv.2 else acc k) else acc)
    live

/-- A default assignment for the live Tk variables, matching the values
the GUI starts with (used only to instantiate theorems at concrete
inputs). -/
def liveDefault : String → Val := fun k =>
  if k = "risk" ∨ k = "level" ∨ k = "threads" then Val.s "1"
  else if k = "timeout" then Val.s "30"
  else if k = "retries" then Val.s "3"
  else if k = "delay" then Val.s "0"
  else if k = "batch" ∨ k = "common_columns" ∨ k = "common_tables" ∨ k = "count"
       ∨ k = "dbms_detect" ∨ k = "dump_all" ∨ k = "dump_columns" ∨ k = "dump_table"
       ∨ k = "enum_columns" ∨ k = "enum_dbs" ∨ k = "enum_schema" ∨ k = "enum_tables"
       ∨ k = "os_detect" ∨ k = "random_agent" ∨ k = "tech_boolean" ∨ k = "tech_error"
       ∨ k = "tech_inline" ∨ k = "tech_stacked" ∨ k = "tech_time" ∨ k = "tech_union"
       ∨ k = "tor" ∨ k = "verbose" then Val.b false
  else Val.s ""

/-- `true` when option slot `i` can never emit a token starting with `q`:
for a boolean flag its literal token does not start with `q`, for a
value-carrying slot its fixed prefix and `q` are prefix-incomparable. -/
def preSafe (q : String) (i : Opt) : Bool :=
  match litOpt i with
  | some l => ! q.data.isPrefixOf l.data
  | none => ! (q.data.isPrefixOf (sig i).data || (sig i).data.isPrefixOf q.data)

/-- `true` when option slot `i` can never emit the exact token `x`. -/
def eqSafe (x : String) (i : Opt) : Bool :=
  match litOpt i with
  | some l => l != x
  | none => ! (sig i).data.isPrefixOf x.data

/-! ## Theorems -/

theorem sig_isPrefix (i : Opt) (o : Options) (t : String) (ht : t ∈ tokenFor i o) :
    (sig i).data <+: t.data := by
  cases i <;> simp only [tokenFor] at ht <;> split at ht <;>
    first
      | exact absurd ht (List.not_mem_nil t)
      | (rw [List.mem_singleton] at ht; subst ht;
         first
           | exact List.prefix_refl _
           | (simp only [String.data_append, List.append_assoc]
              exact List.prefix_append _ _))

theorem tok_lit (i : Opt) (o : Options) (t : String) (ht : t ∈ tokenFor i o)
    (l : String) (hl : litOpt i = some l) : t = l := by
  cases i <;> simp only [litOpt] at hl <;>
    first
      | exact Option.noConfusion hl
      | (injection hl with hl; subst hl;
         simp only [tokenFor] at ht; split at ht <;>
           first
             | exact absurd ht (List.not_mem_nil t)
             | (rw [List.mem_singleton] at ht; exact ht))

theorem piece_filter_nil_pre (o : Options) (i : Opt) (q : String)
    (h : preSafe q i = true) :
    (tokenFor i o).filter (fun t => q.data.isPrefixOf t.data) = [] := by
  rw [List.filter_eq_nil_iff]
  intro t ht hq
  have hsig := sig_isPrefix i o t ht
  unfold preSafe at h
  cases hli : litOpt i with
  | some l =>
      rw [hli] at h
      simp only [Bool.not_eq_true'] at h
      have hteq := tok_lit i o t ht l hli
      subst hteq
      simp [h] at hq
  | none =>
      rw [hli] at h
      simp only [Bool.not_eq_true', Bool.or_eq_false_iff] at h
      have hq' : q.data <+: t.data := List.isPrefixOf_iff_prefix.mp hq
      rcases List.prefix_or_prefix_of_prefix hq' hsig with hc | hc
      · have hb := List.isPrefixOf_iff_prefix.mpr hc
        simp [hb] at h
      · have hb := List.isPrefixOf_iff_prefix.mpr hc
        simp [hb] at h

theorem piece_filter_nil_eq (o : Options) (i : Opt) (x : String)
    (h : eqSafe x i = true) :
    (tokenFor i o).filter (fun t => t == x) = [] := by
  rw [List.filter_eq_nil_iff]
  intro t ht hq
  rw [beq_iff_eq] at hq
  have hsig := sig_isPrefix i o t ht
  unfold eqSafe at h
  cases hli : litOpt i with
  | some l =>
      rw [hli] at h
      have hteq := tok_lit i o t ht l hli
      rw [bne_iff_ne] at h
      exact h (by rw [← hteq]; exact hq)
  | none =>
      rw [hli] at h
      simp only [Bool.not_eq_true'] at h
      rw [hq] at hsig
      have hb := List.isPrefixOf_iff_prefix.mpr hsig
      simp [hb] at h

theorem fold_filter_nil (o : Options) (p : String → Bool) (l : List Opt)
    (h : ∀ i ∈ l, (tokenFor i o).filter p = []) :
    (List.foldr (fun i acc => tokenFor i o ++ acc) [] l).filter p = [] := by
  induction l with
  | nil => rfl
  | cons a t ih =>
      simp only [List.foldr_cons, List.filter_append]
      rw [h a (List.mem_cons_self a t),
          ih (fun i hi => h i (List.mem_cons_of_mem a hi))]
      rfl

theorem fold_filter_single (o : Options) (p : String → Bool) (j : Opt)
    (l : List Opt) (hc : l.count j = 1)
    (hother : ∀ i ∈ l, i ≠ j → (tokenFor i o).filter p = []) :
    (List.foldr (fun i acc => tokenFor i o ++ acc) [] l).filter p =
      (tokenFor j o).filter p := by
  induction l with
  | nil => simp at hc
  | cons a t ih =>
      simp only [List.foldr_cons, List.filter_append]
      by_cases ha : a = j
      · subst ha
        have hct : t.count a = 0 := by
          simp [List.count_cons] at hc
          omega
        have hnot : a ∉ t := List.count_eq_zero.mp hct
        rw [fold_filter_nil o p t
            (fun i hi => hother i (List.mem_cons_of_mem a hi)
              (fun he => hnot (he ▸ hi)))]
        simp
      · rw [hother a (List.mem_cons_self a t) ha, List.nil_append]
        have hct : t.count j = 1 := by
          simp [List.count_cons, ha] at hc
          omega
        exact ih hct (fun i hi hij => hother i (List.mem_cons_of_mem a hi) hij)

theorem filter_self_pre (o : Options) (j : Opt) :
    (tokenFor j o).filter (fun t => (sig j).data.isPrefixOf t.data) = tokenFor j o := by
  rw [List.filter_eq_self]
  intro t ht
  exact List.isPrefixOf_iff_prefix.mpr (sig_isPrefix j o t ht)

theorem filter_self_eq (o : Options) (j : Opt) (l : String) (hl : litOpt j = some l) :
    (tokenFor j o).filter (fun t => t == l) = tokenFor j o := by
  rw [List.filter_eq_self]
  intro t ht
  rw [beq_iff_eq]
  exact tok_lit j o t ht l hl

theorem command_filter_pre (o : Options) (j : Opt)
    (hcomp : ∀ i : Opt, i ≠ j → preSafe (sig j) i = true)
    (hsql : (sig j).data.isPrefixOf "sqlmap".data = false)
    (hcount : optOrder.count j = 1) :
    (command_parts o).filter (fun t => (sig j).data.isPrefixOf t.data) = tokenFor j o := by
  unfold command_parts
  rw [List.filter_cons]
  simp only [hsql, Bool.false_eq_true, if_false]
  rw [fold_filter_single o _ j optOrder hcount
      (fun i _ hij => piece_filter_nil_pre o i (sig j) (hcomp i hij))]
  exact filter_self_pre o j

theorem command_filter_eq (o : Options) (j : Opt) (l : String)
    (hl : litOpt j = some l)
    (hcomp : ∀ i : Opt, i ≠ j → eqSafe l i = true)
    (hsql : ("sqlmap" == l) = false)
    (hcount : optOrder.count j = 1) :
    (command_parts o).filter (fun t => t == l) = tokenFor j o := by
  unfold command_parts
  rw [List.filter_cons]
  simp only [hsql, Bool.false_eq_true, if_false]
  rw [fold_filter_single o _ j optOrder hcount
      (fun i _ hij => piece_filter_nil_eq o i l (hcomp i hij))]
  exact filter_self_eq o j l hl

/-! ### Supervisor invariants -/

/-- Counting invariant: live processes plus scheduled completion
callbacks never exceed one, and are zero whenever the flag is down. -/
def GoodCounts (s : SupState) : Prop :=
  s.procs + s.pendingDone ≤ 1 ∧ (s.is_running = false → s.procs + s.pendingDone = 0)

theorem intercalate_go_exists (as : List String) :
    ∀ (acc sep : String), ∃ r, String.intercalate.go acc sep as = acc ++ r := by
  induction as with
  | nil =>
      intro acc sep
      exact ⟨"", by simp [String.intercalate.go]⟩
  | cons a as ih =>
      intro acc sep
      obtain ⟨r, hr⟩ := ih (acc ++ sep ++ a) sep
      refine ⟨sep ++ a ++ r, ?_⟩
      rw [show String.intercalate.go acc sep (a :: as) =
            String.intercalate.go (acc ++ sep ++ a) sep as from rfl, hr]
      simp [String.append_assoc]

theorem generate_command_ne (o : Options) : generate_command o ≠ "" := by
  unfold generate_command command_parts
  intro h
  obtain ⟨r, hr⟩ :=
    intercalate_go_exists (List.foldr (fun i acc => tokenFor i o ++ acc) [] optOrder)
      "sqlmap" " "
  rw [show String.intercalate " "
        ("sqlmap" :: List.foldr (fun i acc => tokenFor i o ++ acc) [] optOrder) =
      String.intercalate.go "sqlmap" " "
        (List.foldr (fun i acc => tokenFor i o ++ acc) [] optOrder) from rfl, hr] at h
  have hlen : ("sqlmap" ++ r).length = 0 := by rw [h]; rfl
  rw [String.length_append] at hlen
  have h6 : "sqlmap".length = 6 := rfl
  omega

theorem stepOp_counts {s : SupState} (op : SupOp) (hop : op ≠ .stop)
    (h : GoodCounts s) : GoodCounts (stepOp op s) := by
  obtain ⟨h1, h2⟩ := h
  cases op with
  | genCommand o => exact ⟨h1, h2⟩
  | execute ok =>
      by_cases hc : s.current_command = ""
      · simp only [stepOp, execute_sqlmap, if_pos hc]
        exact ⟨h1, h2⟩
      · by_cases hr : s.is_running = true
        · simp only [stepOp, execute_sqlmap, if_neg hc, if_pos hr]
          exact ⟨h1, h2⟩
        · have h0 := h2 (by simpa using hr)
          cases ok <;> refine ⟨?_, ?_⟩ <;>
            simp [stepOp, execute_sqlmap, hc, hr] <;> omega
  | procLine t =>
      by_cases hp : s.procs ≠ 0 <;> refine ⟨?_, ?_⟩
      · simp [stepOp, hp]; omega
      · intro hf
        simp [stepOp, hp] at hf ⊢
        have := h2 hf; omega
      · simp [stepOp, hp]; omega
      · intro hf
        simp [stepOp, hp] at hf ⊢
        have := h2 hf; omega
  | procExit =>
      by_cases hp : s.procs ≠ 0
      · refine ⟨?_, ?_⟩
        · simp [stepOp, hp]; omega
        · intro hf
          simp [stepOp, hp] at hf ⊢
          have := h2 hf
          omega
      · simp only [stepOp, if_neg hp]
        exact ⟨h1, h2⟩
  | streamError =>
      by_cases hp : s.procs ≠ 0
      · refine ⟨?_, ?_⟩
        · simp [stepOp, hp]; omega
        · intro hf
          simp [stepOp, hp] at hf ⊢
          have := h2 hf
          omega
      · simp only [stepOp, if_neg hp]
        exact ⟨h1, h2⟩
  | doneEvent =>
      by_cases hp : s.pendingDone ≠ 0
      · refine ⟨?_, ?_⟩ <;> simp [stepOp, hp] <;> omega
      · simp only [stepOp, if_neg hp]
        exact ⟨h1, h2⟩
  | stop => exact absurd rfl hop

theorem runOps_counts (ops : List SupOp) (h : ∀ op ∈ ops, op ≠ .stop) :
    ∀ s : SupState, GoodCounts s → GoodCounts (runOps ops s) := by
  induction ops with
  | nil => intro s hs; exact hs
  | cons op rest ih =>
      intro s hs
      exact ih (fun x hx => h x (List.mem_cons_of_mem op hx)) _
        (stepOp_counts op (h op (List.mem_cons_self op rest)) hs)

/-- Compiled-command invariant: whenever the running flag is up, a
non-empty compiled command is present. -/
def CmdInv (s : SupState) : Prop := s.is_running = true → s.current_command ≠ ""

theorem stepOp_cmdInv (op : SupOp) {s : SupState} (h : CmdInv s) :
    CmdInv (stepOp op s) := by
  cases op with
  | genCommand o => exact fun _ => generate_command_ne o
  | execute ok =>
      by_cases hc : s.current_command = ""
      · simp only [stepOp, execute_sqlmap, if_pos hc]; exact h
      · by_cases hr : s.is_running = true
        · simp only [stepOp, execute_sqlmap, if_neg hc, if_pos hr]; exact h
        · cases ok <;>
            simp only [stepOp, execute_sqlmap, if_neg hc, if_neg hr] <;>
            exact fun _ => hc
  | procLine t =>
      by_cases hp : s.procs ≠ 0 <;>
        simp only [stepOp, if_pos, if_neg, hp, ite_true, ite_false, ite_not] <;>
        exact h
  | procExit =>
      by_cases hp : s.procs ≠ 0
      · simp only [stepOp, if_pos hp]; exact h
      · simp only [stepOp, if_neg hp]; exact h
  | streamError =>
      by_cases hp : s.procs ≠ 0
      · simp only [stepOp, if_pos hp]; exact h
      · simp only [stepOp, if_neg hp]; exact h
  | doneEvent =>
      by_cases hp : s.pendingDone ≠ 0
      · simp only [stepOp, if_pos hp]; intro hf; exact absurd hf (by simp)
      · simp only [stepOp, if_neg hp]; exact h
  | stop =>
      by_cases hr : s.is_running = true
      · simp only [stepOp, stop_execution, if_pos hr]
        intro hf; exact absurd hf (by simp)
      · simp only [stepOp, stop_execution, if_neg hr]; exact h

theorem runOps_cmdInv (ops : List SupOp) :
    ∀ s : SupState, CmdInv s → CmdInv (runOps ops s) := by
  induction ops with
  | nil => intro s hs; exact hs
  | cons op rest ih => intro s hs; exact ih _ (stepOp_cmdInv op hs)

/-! ### Claim theorems: execution supervisor -/

/-- C1, counterexample: the worker observes a process that exits with the
non-zero status 1, yet the delivered events are exactly the success event
(no failure event is emitted), refuting the claim that a non-zero exit is
reported via the failure event and not a success event. -/
theorem claim_C1_counterexample :
    run_sqlmap (ProcResult.completed [] 1) = ([SupEvent.finishedSuccess], false) := rfl

/-- C1, amended: the supervisor returns to Idle after every execution, and
a failure event (carrying the exception text) is emitted exactly when the
launch or the read of the output stream raises; a process that runs to
completion is reported with the success event regardless of its exit
status, which the worker never inspects. -/
theorem claim_C1 (r : ProcResult) :
    (run_sqlmap r).2 = false ∧
    ((∃ m, SupEvent.finishedFailure m ∈ (run_sqlmap r).1) ↔
      ∃ before m, r = .raised before m) ∧
    (SupEvent.finishedSuccess ∈ (run_sqlmap r).1 ↔ ∃ lines c, r = .completed lines c) ∧
    (∀ before m, r = .raised before m →
      (run_sqlmap r).1 = before.map SupEvent.outputLine ++ [SupEvent.finishedFailure m]) := by
  cases r with
  | raised before msg =>
      refine ⟨rfl, ?_, ?_, ?_⟩ <;> simp [run_sqlmap]
  | completed lines c =>
      refine ⟨rfl, ?_, ?_, ?_⟩ <;> simp [run_sqlmap]

/-- Witness for C1 at a concrete raising run. -/
theorem claim_C1_witness :
    (run_sqlmap (ProcResult.raised ["a"] "boom")).1 =
      [SupEvent.outputLine "a", SupEvent.finishedFailure "boom"] :=
  ((claim_C1 (ProcResult.raised ["a"] "boom")).2.2.2 ["a"] "boom" rfl).trans rfl

/-- C2, counterexample: the claimed invariant fails, and in two ways.
With a stop request: generate, execute, stop (which only clears the
flag), execute — two external processes launched by the supervisor are
live at once.  And with no stop request anywhere in the sequence:
generate, execute, stream-read error (the worker's `except` clause
schedules the failure callback while the process lives on, orphaned),
the callback runs (clearing the flag), execute — again two live
processes. -/
theorem claim_C2_counterexample :
    ((runOps [SupOp.genCommand {}, SupOp.execute true, SupOp.stop, SupOp.execute true]
        initState).procs +
      (runOps [SupOp.genCommand {}, SupOp.execute true, SupOp.stop, SupOp.execute true]
        initState).orphans = 2) ∧
    SupOp.stop ∉ [SupOp.genCommand ({} : Options), SupOp.execute true, SupOp.streamError,
        SupOp.doneEvent, SupOp.execute true] ∧
    ((runOps [SupOp.genCommand {}, SupOp.execute true, SupOp.streamError,
        SupOp.doneEvent, SupOp.execute true] initState).procs +
      (runOps [SupOp.genCommand {}, SupOp.execute true, SupOp.streamError,
        SupOp.doneEvent, SupOp.execute true] initState).orphans = 2) := by
  refine ⟨?_, ?_, ?_⟩ <;> decide

/-- C2, amended: what the flag does enforce is that at most one external
process is SUPERVISED — live and still attached to a reading worker — at
a time, under every operation sequence that contains no stop request.
The bound does not extend to live processes: a stop request while
Running, and equally a stream-read error with no stop request involved,
leave the first process running while letting a subsequent execution
request launch a second one. -/
theorem claim_C2 (ops : List SupOp) (h : ∀ op ∈ ops, op ≠ SupOp.stop) :
    (runOps ops initState).procs ≤ 1 := by
  have hg : GoodCounts (runOps ops initState) :=
    runOps_counts ops h initState ⟨by decide, fun _ => rfl⟩
  exact le_trans (Nat.le_add_right _ _) hg.1

/-- Witness for C2 at a concrete stop-free operation sequence. -/
theorem claim_C2_witness :
    (∀ op ∈ [SupOp.genCommand {}, SupOp.execute true], op ≠ SupOp.stop) ∧
    (runOps [SupOp.genCommand {}, SupOp.execute true] initState).procs ≤ 1 :=
  ⟨by decide, claim_C2 [SupOp.genCommand {}, SupOp.execute true] (by decide)⟩

/-- C3: in every reachable state with the running flag up, a second
execution request fails synchronously with the already-running condition
and the whole supervisor state — running flag, accumulated output and
compiled command included — is unchanged. -/
theorem claim_C3 (ops : List SupOp) (ok : Bool)
    (h : (runOps ops initState).is_running = true) :
    execute_sqlmap ok (runOps ops initState) = .error .alreadyRunning ∧
    stepOp (.execute ok) (runOps ops initState) = runOps ops initState := by
  have hcmd : CmdInv (runOps ops initState) :=
    runOps_cmdInv ops initState (fun hr => by simp [initState] at hr)
  have hc : (runOps ops initState).current_command ≠ "" := hcmd h
  have he : execute_sqlmap ok (runOps ops initState) = .error .alreadyRunning := by
    unfold execute_sqlmap
    rw [if_neg hc, if_pos h]
  refine ⟨he, ?_⟩
  simp only [stepOp, he]

/-- Witness for C3 at a concrete reachable running state. -/
theorem claim_C3_witness :
    (runOps [SupOp.genCommand {}, SupOp.execute true] initState).is_running = true ∧
    execute_sqlmap true (runOps [SupOp.genCommand {}, SupOp.execute true] initState) =
      .error .alreadyRunning ∧
    stepOp (.execute true) (runOps [SupOp.genCommand {}, SupOp.execute true] initState) =
      runOps [SupOp.genCommand {}, SupOp.execute true] initState := by
  have h : (runOps [SupOp.genCommand {}, SupOp.execute true] initState).is_running = true := by
    decide
  exact ⟨h, (claim_C3 [SupOp.genCommand {}, SupOp.execute true] true h).1,
    (claim_C3 [SupOp.genCommand {}, SupOp.execute true] true h).2⟩

/-- C7: the compiler is a pure deterministic function — equal Option Model
snapshots compile to byte-identical command strings, and re-running the
command generation step on an unchanged model leaves the stored command
(and the whole state) exactly as after the first run. -/
theorem claim_C7 (o₁ o₂ : Options) (h : o₁ = o₂) :
    generate_command o₁ = generate_command o₂ ∧
    ∀ s : SupState,
      stepOp (.genCommand o₁) (stepOp (.genCommand o₂) s) = stepOp (.genCommand o₂) s := by
  subst h
  exact ⟨rfl, fun s => rfl⟩

/-- Witness for C7 at a concrete snapshot. -/
theorem claim_C7_witness :
    generate_command { risk := "3" } = generate_command { risk := "3" } :=
  (claim_C7 { risk := "3" } { risk := "3" } rfl).1

/-! ### Preset store lemmas -/

theorem apply_preset_not_mem (p : Preset) :
    ∀ (live : String → Val) (k : String), k ∉ p.map Prod.fst →
      apply_preset p live k = live k := by
  induction p with
  | nil => intro live k _; rfl
  | cons kv t ih =>
      intro live k hk
      have hk1 : k ≠ kv.1 := fun he => hk (by simp [he])
      have hk2 : k ∉ t.map Prod.fst := fun hm => hk (by simp [List.mem_map] at hm ⊢; tauto)
      show apply_preset t _ k = live k
      rw [ih _ k hk2]
      by_cases hv : kv.1 ∈ varKeys <;> simp [hv, hk1]

theorem apply_preset_not_var (p : Preset) :
    ∀ (live : String → Val) (k : String), k ∉ varKeys →
      apply_preset p live k = live k := by
  induction p with
  | nil => intro live k _; rfl
  | cons kv t ih =>
      intro live k hk
      show apply_preset t _ k = live k
      rw [ih _ k hk]
      by_cases hv : kv.1 ∈ varKeys
      · have hk1 : k ≠ kv.1 := fun he => hk (he ▸ hv)
        simp [hv, hk1]
      · simp [hv]

theorem apply_preset_mem (p : Preset) :
    ∀ (live : String → Val) (k : String) (v : Val), (p.map Prod.fst).Nodup →
      (k, v) ∈ p → k ∈ varKeys → apply_preset p live k = v := by
  induction p with
  | nil => intro live k v _ hm; exact absurd hm (List.not_mem_nil _)
  | cons kv t ih =>
      intro live k v hnd hm hkv
      rw [List.map_cons, List.nodup_cons] at hnd
      rcases List.mem_cons.mp hm with he | ht
      · have he1 : kv.1 = k := by rw [← he]
        have he2 : kv.2 = v := by rw [← he]
        have hk2 : k ∉ t.map Prod.fst := he1 ▸ hnd.1
        show apply_preset t _ k = v
        rw [apply_preset_not_mem t _ k hk2]
        rw [← he1] at hkv ⊢
        simp [hkv, he2]
      · show apply_preset t _ k = v
        exact ih _ k v hnd.2 ht hkv

/-! ### Claim theorems: preset store -/

/-- C8: evaluating the put-then-get round trip on the code: saving the
current settings (risk "3", enum_dbs true) under the name "X" and then
looking "X" up fails with not-found — and so does looking up the mangled
key "⚙️ X" — because `save_preset` ends by calling `load_presets()`, which
reassigns the store to the six built-ins; likewise deleting the built-in
"🚀 Quick Scan" and then looking it up SUCCEEDS, because `delete_preset`
also ends in `load_presets()`.  Both halves of the claimed contract fail
on the code. -/
theorem claim_C8 :
    save_preset liveDefault "X" builtinStore "X" = none ∧
    save_preset liveDefault "X" builtinStore "⚙️ X" = none ∧
    delete_preset "🚀 Quick Scan" builtinStore "🚀 Quick Scan" =
      some [("risk", Val.s "2"), ("level", Val.s "3"), ("batch", Val.b true),
            ("verbose", Val.b true), ("random_agent", Val.b true)] := by
  refine ⟨?_, ?_, ?_⟩ <;> decide

/-- C9: applying a preset overwrites exactly the Option Model keys present
in the preset — a key absent from the preset keeps its prior value, a key
that is not an Option Model key at all is untouched even if the preset
names it, and an Option Model key present in the preset receives the
preset's value. -/
theorem claim_C9 (p : Preset) (live : String → Val) (k : String) :
    (k ∉ p.map Prod.fst → apply_preset p live k = live k) ∧
    (k ∉ varKeys → apply_preset p live k = live k) ∧
    ((p.map Prod.fst).Nodup → ∀ v, (k, v) ∈ p → k ∈ varKeys →
      apply_preset p live k = v) :=
  ⟨apply_preset_not_mem p live k, apply_preset_not_var p live k,
   fun hnd v hm hk => apply_preset_mem p live k v hnd hm hk⟩

/-- Witness for C9 at a concrete preset and live model. -/
theorem claim_C9_witness :
    (apply_preset [("risk", Val.s "2"), ("zzz", Val.s "9")] liveDefault "url" =
      liveDefault "url") ∧
    (apply_preset [("risk", Val.s "2"), ("zzz", Val.s "9")] liveDefault "zzz" =
      liveDefault "zzz") ∧
    (apply_preset [("risk", Val.s "2"), ("zzz", Val.s "9")] liveDefault "risk" =
      Val.s "2") :=
  ⟨(claim_C9 [("risk", Val.s "2"), ("zzz", Val.s "9")] liveDefault "url").1 (by decide),
   (claim_C9 [("risk", Val.s "2"), ("zzz", Val.s "9")] liveDefault "zzz").2.1 (by decide),
   (claim_C9 [("risk", Val.s "2"), ("zzz", Val.s "9")] liveDefault "risk").2.2
     (by decide) (Val.s "2") (by decide) (by decide)⟩

/-- C10, counterexample: the empty string is a name all of whose
characters have code points at most 127, yet saving under it stores
nothing at all — `save_preset` returns early — so in particular nothing
is stored under "⚙️ " (the key the claim requires). -/
theorem claim_C10_counterexample :
    save_preset liveDefault "" builtinStore = builtinStore ∧
    builtinStore "⚙️ " = none :=
  ⟨rfl, rfl⟩

/-- C10, amended: for every NON-EMPTY name, the insertion `save_preset`
performs (source line 910, before the built-in refresh discards it — see
C8) uses the key "⚙️ " prepended to the name when every character has a
code point at most 127, and the unchanged name when some character has a
code point above 127; the empty name causes no insertion at all. -/
theorem claim_C10 (live : String → Val) (st : Store) (name : String)
    (hne : name ≠ "") :
    ((∀ c ∈ name.data, c.toNat ≤ 127) →
        save_preset_store live name st ("⚙️ " ++ name) = some (collectPreset live)) ∧
    ((∃ c ∈ name.data, 127 < c.toNat) →
        save_preset_store live name st name = some (collectPreset live)) ∧
    save_preset live name st = load_presets (save_preset_store live name st) := by
  refine ⟨?_, ?_, ?_⟩
  · intro h
    have hk : presetKey name = "⚙️ " ++ name := by
      unfold presetKey
      rw [if_neg]
      simp only [List.any_eq_true, decide_eq_true_eq, not_exists, not_and, not_lt]
      exact fun c hc => h c hc
    unfold save_preset_store
    rw [hk, if_pos rfl]
  · intro h
    obtain ⟨c, hc, hlt⟩ := h
    have hk : presetKey name = name := by
      unfold presetKey
      rw [if_pos]
      simp only [List.any_eq_true, decide_eq_true_eq]
      exact ⟨c, hc, hlt⟩
    unfold save_preset_store
    rw [hk, if_pos rfl]
  · unfold save_preset
    rw [if_neg hne]

/-- Witness for C10 at concrete names, one pure-ASCII and one not. -/
theorem claim_C10_witness :
    ("A" ≠ "") ∧
    save_preset_store liveDefault "A" builtinStore ("⚙️ " ++ "A") =
      some (collectPreset liveDefault) ∧
    save_preset_store liveDefault "💥" builtinStore "💥" =
      some (collectPreset liveDefault) :=
  ⟨by decide,
   (claim_C10 liveDefault builtinStore "A" (by decide)).1 (by decide),
   (claim_C10 liveDefault builtinStore "💥" (by decide)).2.1 (by decide)⟩

/-! ### Claim theorems: command compiler -/

/-- C4: for every Option Model snapshot, the compiled token list contains
a token starting with `--technique=` exactly when at least one of the six
technique booleans is true, that token is unique and equals
`--technique=` followed by the technique letters, and the letters are
exactly B, E, U, S, T, Q for boolean-blind, error-based, union-based,
stacked-queries, time-blind, inline-queries, concatenated in that fixed
canonical order (so time-blind plus boolean-blind yields `BT`, never
`TB`, whatever order the user toggled them in). -/
theorem claim_C4 (o : Options) :
    ((command_parts o).filter (fun t => "--technique=".data.isPrefixOf t.data) =
      if o.tech_boolean || o.tech_error || o.tech_union || o.tech_stacked ||
         o.tech_time || o.tech_inline
      then ["--technique=" ++ String.join (techniques o)] else []) ∧
    String.join (techniques o) =
      (if o.tech_boolean then "B" else "") ++ (if o.tech_error then "E" else "") ++
      (if o.tech_union then "U" else "") ++ (if o.tech_stacked then "S" else "") ++
      (if o.tech_time then "T" else "") ++ (if o.tech_inline then "Q" else "") := by
  constructor
  · have h := command_filter_pre o .technique (by decide) (by decide) (by decide)
    refine h.trans ?_
    cases hb : o.tech_boolean <;> cases he : o.tech_error <;> cases hu : o.tech_union <;>
      cases hs : o.tech_stacked <;> cases htm : o.tech_time <;> cases hq : o.tech_inline <;>
      simp [tokenFor, techniques, hb, he, hu, hs, htm, hq, String.join]
  · cases hb : o.tech_boolean <;> cases he : o.tech_error <;> cases hu : o.tech_union <;>
      cases hs : o.tech_stacked <;> cases htm : o.tech_time <;> cases hq : o.tech_inline <;>
      simp [techniques, hb, he, hu, hs, htm, hq, String.join]

/-- C5: per-option characterization of the compiled token list — for each
option, the tokens carrying that option's flag are exactly the ones the
option contributes, so an option left at its declared default (risk "1",
level "1", threads "1", timeout "30", retries "3", delay "0", a boolean
at false, a text option empty) contributes no token at all to the
Compiled Command. -/
theorem claim_C5 (o : Options) :
    ((command_parts o).filter (fun t => "--risk=".data.isPrefixOf t.data) =
      if o.risk ≠ "1" then ["--risk=" ++ o.risk] else []) ∧
    ((command_parts o).filter (fun t => "--level=".data.isPrefixOf t.data) =
      if o.level ≠ "1" then ["--level=" ++ o.level] else []) ∧
    ((command_parts o).filter (fun t => "--threads=".data.isPrefixOf t.data) =
      if o.threads ≠ "1" then ["--threads=" ++ o.threads] else []) ∧
    ((command_parts o).filter (fun t => "--timeout=".data.isPrefixOf t.data) =
      if o.timeout ≠ "30" then ["--timeout=" ++ o.timeout] else []) ∧
    ((command_parts o).filter (fun t => "--retries=".data.isPrefixOf t.data) =
      if o.retries ≠ "3" then ["--retries=" ++ o.retries] else []) ∧
    ((command_parts o).filter (fun t => "--delay=".data.isPrefixOf t.data) =
      if o.delay ≠ "0" then ["--delay=" ++ o.delay] else []) ∧
    ((command_parts o).filter (fun t => t == "--tor") =
      if o.tor then ["--tor"] else []) ∧
    ((command_parts o).filter (fun t => t == "--random-agent") =
      if o.random_agent then ["--random-agent"] else []) ∧
    ((command_parts o).filter (fun t => t == "--batch") =
      if o.batch then ["--batch"] else []) ∧
    ((command_parts o).filter (fun t => t == "-v") =
      if o.verbose then ["-v"] else []) ∧
    ((command_parts o).filter (fun t => t == "--dbs") =
      if o.enum_dbs then ["--dbs"] else []) ∧
    ((command_parts o).filter (fun t => t == "--tables") =
      if o.enum_tables then ["--tables"] else []) ∧
    ((command_parts o).filter (fun t => t == "--columns") =
      if o.enum_columns then ["--columns"] else []) ∧
    ((command_parts o).filter (fun t => t == "--schema") =
      if o.enum_schema then ["--schema"] else []) ∧
    ((command_parts o).filter (fun t => t == "--dump-all") =
      if o.dump_all then ["--dump-all"] else []) ∧
    ((command_parts o).filter (fun t => t == "--dump") =
      if o.dump_table then ["--dump"] else []) ∧
    ((command_parts o).filter (fun t => t == "--dump-columns") =
      if o.dump_columns then ["--dump-columns"] else []) ∧
    ((command_parts o).filter (fun t => t == "--count") =
      if o.count then ["--count"] else []) ∧
    ((command_parts o).filter (fun t => t == "--common-tables") =
      if o.common_tables then ["--common-tables"] else []) ∧
    ((command_parts o).filter (fun t => t == "--common-columns") =
      if o.common_columns then ["--common-columns"] else []) ∧
    ((command_parts o).filter (fun t => t == "--os-detect") =
      if o.os_detect then ["--os-detect"] else []) ∧
    ((command_parts o).filter (fun t => t == "--dbms-detect") =
      if o.dbms_detect then ["--dbms-detect"] else []) ∧
    ((command_parts o).filter (fun t => "-u \"".data.isPrefixOf t.data) =
      if o.url ≠ "" then ["-u \"" ++ o.url ++ "\""] else []) ∧
    ((command_parts o).filter (fun t => "--data=\"".data.isPrefixOf t.data) =
      if o.data ≠ "" then ["--data=\"" ++ o.data ++ "\""] else []) ∧
    ((command_parts o).filter (fun t => "--cookie=\"".data.isPrefixOf t.data) =
      if o.cookie ≠ "" then ["--cookie=\"" ++ o.cookie ++ "\""] else []) ∧
    ((command_parts o).filter (fun t => "--user-agent=\"".data.isPrefixOf t.data) =
      if o.user_agent ≠ "" then ["--user-agent=\"" ++ o.user_agent ++ "\""] else []) ∧
    ((command_parts o).filter (fun t => "--referer=\"".data.isPrefixOf t.data) =
      if o.referer ≠ "" then ["--referer=\"" ++ o.referer ++ "\""] else []) ∧
    ((command_parts o).filter (fun t => "--headers=\"".data.isPrefixOf t.data) =
      if o.headers ≠ "" then ["--headers=\"" ++ o.headers ++ "\""] else []) ∧
    ((command_parts o).filter (fun t => "--proxy=\"".data.isPrefixOf t.data) =
      if o.proxy ≠ "" then ["--proxy=\"" ++ o.proxy ++ "\""] else []) ∧
    ((command_parts o).filter (fun t => "-D \"".data.isPrefixOf t.data) =
      if o.database ≠ "" then ["-D \"" ++ o.database ++ "\""] else []) ∧
    ((command_parts o).filter (fun t => "-T \"".data.isPrefixOf t.data) =
      if o.table ≠ "" then ["-T \"" ++ o.table ++ "\""] else []) ∧
    ((command_parts o).filter (fun t => "--wordlist=\"".data.isPrefixOf t.data) =
      if o.wordlist ≠ "" then ["--wordlist=\"" ++ o.wordlist ++ "\""] else []) ∧
    ((command_parts o).filter (fun t => "--output-dir=\"".data.isPrefixOf t.data) =
      if o.output_dir ≠ "" then ["--output-dir=\"" ++ o.output_dir ++ "\""] else []) :=
  ⟨command_filter_pre o .risk (by decide) (by decide) (by decide),
   command_filter_pre o .level (by decide) (by decide) (by decide),
   command_filter_pre o .threads (by decide) (by decide) (by decide),
   command_filter_pre o .timeout (by decide) (by decide) (by decide),
   command_filter_pre o .retries (by decide) (by decide) (by decide),
   command_filter_pre o .delay (by decide) (by decide) (by decide),
   command_filter_eq o .tor "--tor" rfl (by decide) (by decide) (by decide),
   command_filter_eq o .random_agent "--random-agent" rfl (by decide) (by decide) (by decide),
   command_filter_eq o .batch "--batch" rfl (by decide) (by decide) (by decide),
   command_filter_eq o .verbose "-v" rfl (by decide) (by decide) (by decide),
   command_filter_eq o .enum_dbs "--dbs" rfl (by decide) (by decide) (by decide),
   command_filter_eq o .enum_tables "--tables" rfl (by decide) (by decide) (by decide),
   command_filter_eq o .enum_columns "--columns" rfl (by decide) (by decide) (by decide),
   command_filter_eq o .enum_schema "--schema" rfl (by decide) (by decide) (by decide),
   command_filter_eq o .dump_all "--dump-all" rfl (by decide) (by decide) (by decide),
   command_filter_eq o .dump_table "--dump" rfl (by decide) (by decide) (by decide),
   command_filter_eq o .dump_columns "--dump-columns" rfl (by decide) (by decide) (by decide),
   command_filter_eq o .count "--count" rfl (by decide) (by decide) (by decide),
   command_filter_eq o .common_tables "--common-tables" rfl (by decide) (by decide) (by decide),
   command_filter_eq o .common_columns "--common-columns" rfl (by decide) (by decide) (by decide),
   command_filter_eq o .os_detect "--os-detect" rfl (by decide) (by decide) (by decide),
   command_filter_eq o .dbms_detect "--dbms-detect" rfl (by decide) (by decide) (by decide),
   command_filter_pre o .url (by decide) (by decide) (by decide),
   command_filter_pre o .data (by decide) (by decide) (by decide),
   command_filter_pre o .cookie (by decide) (by decide) (by decide),
   command_filter_pre o .user_agent (by decide) (by decide) (by decide),
   command_filter_pre o .referer (by decide) (by decide) (by decide),
   command_filter_pre o .headers (by decide) (by decide) (by decide),
   command_filter_pre o .proxy (by decide) (by decide) (by decide),
   command_filter_pre o .database (by decide) (by decide) (by decide),
   command_filter_pre o .table (by decide) (by decide) (by decide),
   command_filter_pre o .wordlist (by decide) (by decide) (by decide),
   command_filter_pre o .output_dir (by decide) (by decide) (by decide)⟩

/-- C6: the spec's end-to-end example — the snapshot with url
"http://t/x?id=1", risk "3", enum_dbs and technique-union set (everything
else at default) compiles to exactly the program name followed by the
four tokens in the fixed order. -/
theorem claim_C6 :
    generate_command { url := "http://t/x?id=1", risk := "3", enum_dbs := true,
                       tech_union := true } =
      "sqlmap -u \"http://t/x?id=1\" --risk=3 --dbs --technique=U" := by
  decide
